import Mathlib

/-!
# Verification of the maize climate stress analysis script

Shallow embedding of `maize_climate_stress_analysis.py`: the script scans
daily temperature series for a global plotting range, loads phenology
records from a per-location summary sheet, derives flowering-day
variability from future-run ensemble files, and composes annotated
subplot grids.  Temperatures and spreadsheet cells are modelled as `ℚ`;
missing spreadsheet cells (NaN) as `none`; fallible steps return
`Except String`.  Python list/array slicing and (possibly negative)
indexing are modelled explicitly.
-/

namespace Maize

/-! ## Python slicing and indexing semantics -/

/-- Normalise one endpoint of a Python slice `xs[a:b]` for a list of
length `len`: negative endpoints count from the end (clamped at 0),
positive ones are clamped at `len`. -/
def pySliceIdx (len : ℕ) (i : ℤ) : ℕ :=
  if i < 0 then ((len : ℤ) + i).toNat else min i.toNat len

/-- Python slice `xs[a:b]` (step 1). -/
def pySlice {α : Type} (xs : List α) (a b : ℤ) : List α :=
  (xs.take (pySliceIdx xs.length b)).drop (pySliceIdx xs.length a)

/-- Python prefix slice `xs[:k]`. -/
def pyTakeTo {α : Type} (xs : List α) (k : ℤ) : List α :=
  pySlice xs 0 k

/-- Python / numpy indexing `xs[i]`: a negative index counts from the
end; an index out of range (after normalisation) is an IndexError,
modelled as `none`. -/
def pyGet (xs : List ℚ) (i : ℤ) : Option ℚ :=
  let j : ℤ := if i < 0 then i + xs.length else i
  if 0 ≤ j then xs.get? j.toNat else none

/-- Floor of a rational, written so that it reduces by kernel
computation (Euclidean division by the positive denominator). -/
def ratFloor (q : ℚ) : ℤ := q.num / (q.den : ℤ)

/-- Python `round` to an integer: round half to even (banker's
rounding), as used by `int(round(x))` in the script. -/
def pyRound (q : ℚ) : ℤ :=
  if q - ratFloor q < 1/2 then ratFloor q
  else if (1 : ℚ)/2 < q - ratFloor q then ratFloor q + 1
  else if ratFloor q % 2 = 0 then ratFloor q else ratFloor q + 1

/-- Python `str.strip()` on the underlying character list. -/
def stripChars (s : List Char) : List Char :=
  (((s.dropWhile Char.isWhitespace).reverse).dropWhile Char.isWhitespace).reverse

/-- Python `str.strip()`. -/
def pyStrip (s : String) : String := ⟨stripChars s.data⟩

instance {ε α : Type} [DecidableEq ε] [DecidableEq α] : DecidableEq (Except ε α) := fun a b =>
  match a, b with
  | .ok x, .ok y =>
    if h : x = y then isTrue (by rw [h]) else isFalse (fun hc => by cases hc; exact h rfl)
  | .error x, .error y =>
    if h : x = y then isTrue (by rw [h]) else isFalse (fun hc => by cases hc; exact h rfl)
  | .ok _, .error _ => isFalse (fun hc => by cases hc)
  | .error _, .ok _ => isFalse (fun hc => by cases hc)

/-! ## Small list helpers (running minima / maxima as in the scan loop) -/

/-- Minimum of a list of rationals, `none` on the empty list
(pandas `DataFrame.min` of an empty frame). -/
def listMin? : List ℚ → Option ℚ
  | [] => none
  | v :: vs => some (vs.foldl min v)

/-- Maximum of a list of rationals, `none` on the empty list. -/
def listMax? : List ℚ → Option ℚ
  | [] => none
  | v :: vs => some (vs.foldl max v)

/-- Running-minimum update `y_min = min(y_min, w)` where `none` plays
the role of the initial `float('inf')` / an absent window minimum. -/
def mergeMin : Option ℚ → Option ℚ → Option ℚ
  | a, none => a
  | none, some b => some b
  | some a, some b => some (min a b)

/-- Running-maximum update `y_max = max(y_max, w)`, with `none` as the
initial `float('-inf')`. -/
def mergeMax : Option ℚ → Option ℚ → Option ℚ
  | a, none => a
  | none, some b => some b
  | some a, some b => some (max a b)

/-- One-value running-minimum update, used to characterise `listMin?`
as a left fold. -/
def updMin (a : Option ℚ) (v : ℚ) : Option ℚ :=
  match a with
  | none => some v
  | some m => some (min m v)

/-- One-value running-maximum update. -/
def updMax (a : Option ℚ) (v : ℚ) : Option ℚ :=
  match a with
  | none => some v
  | some m => some (max m v)

/-! ## Configuration constants of the script -/

/-- The four fixed location pairs plotted as 2×2 grids. -/
def location_groups : List (List String) :=
  [["Dezful", "Shushtar"], ["Lamerd", "Kermanshah"],
   ["Zarqan", "Ravansar"], ["Parsabad", "Ilam"]]

/-- All eight locations, flattened from the groups. -/
def all_locations : List String := location_groups.flatten

/-- The two emissions scenarios. -/
def scenarios : List String := ["ssp245", "ssp585"]

/-- The two maize cultivars. -/
def cultivars : List String := ["260", "704"]

/-- Row index in the per-location summary sheet holding the record for
a (cultivar, scenario) pair (`row_indices` in the script). -/
def row_indices (cultivar scenario : String) : ℕ :=
  if cultivar = "260" then (if scenario = "ssp245" then 3 else 6)
  else (if scenario = "ssp245" then 13 else 16)

/-- Index of the first plotted day (May 22, 0-based). -/
def start_index : ℕ := 142

/-- Number of days scanned after `start_index` by the Range Scanner. -/
def max_days : ℕ := 200

/-- The encoded scenario token `(2071-2090)(<scenario>)` used both in
file paths and as the expected summary-row label. -/
def scenarioToken (scenario : String) : String :=
  "(2071-2090)(" ++ scenario ++ ")"

/-- Path of a daily-averages file (`daily_avg_base_path` formatted). -/
def dailyAvgPath (location scenarioDir : String) : String :=
  "data/daily_averages/" ++ location ++ "/" ++ scenarioDir ++ "/daily_averages.csv"

/-! ## Data model -/

/-- One row of a daily-averages file after column normalisation; the
script requires exactly the `avg_mint` and `avg_maxt` columns. -/
structure DailyRow where
  avg_mint : ℚ
  avg_maxt : ℚ
deriving DecidableEq

/-- One row of a per-location summary sheet: the first-column label
(as a string, before stripping) and the two phenology cells, `none`
modelling NaN. -/
structure MeanRow where
  label : String
  floweringDAS : Option ℚ
  maturityDAS : Option ℚ
deriving DecidableEq

/-- One raw cell of the `FloweringDAS` column of a future-run ensemble
file: either a numeric (or numeric-parseable) value or non-numeric
text. -/
inductive RawCell : Type
  | num (q : ℚ)
  | text (s : String)
deriving DecidableEq

/-- The coercion `pd.to_numeric(errors=coerce)`: non-numeric cells
become absent. -/
def toNumericCoerce : RawCell → Option ℚ
  | .num q => some q
  | .text _ => none

/-- The external file system as seen by the script: daily-averages
files keyed by (location, scenario-directory), summary sheets keyed by
location, and future ensemble `FloweringDAS` columns keyed by
(cultivar, location, scenario).  `none` models a missing file / sheet. -/
structure Env where
  daily : String → String → Option (List DailyRow)
  meanSheet : String → Option (List MeanRow)
  future : String → String → String → Option (List RawCell)

/-! ## Range Scanner (script lines 71–96) -/

/-- The window of values scanned for one series: `max_days` rows
starting at `start_index`, both temperature columns. -/
def windowVals (df : List DailyRow) : List ℚ :=
  ((df.drop start_index).take max_days).flatMap (fun r => [r.avg_mint, r.avg_maxt])

/-- The `FileNotFoundError` message: it names the offending file. -/
def missingMsg (location scenarioDir : String) : String :=
  "Missing file: " ++ dailyAvgPath location scenarioDir

/-- The Range Scanner's `IndexError` message for a too-short series:
it names the offending file. -/
def shortScanMsg (location scenario : String) (n : ℕ) : String :=
  "Only " ++ toString n ++ " days in "
    ++ dailyAvgPath location (scenarioToken scenario)
    ++ ", need " ++ toString (start_index + max_days + 1)

/-- One step of the scan loop for one (location, scenario) pair:
missing-file check, length check, then running min/max update with the
window's column minima / maxima. -/
def scanOne (env : Env) (location scenario : String)
    (acc : Option ℚ × Option ℚ) : Except String (Option ℚ × Option ℚ) :=
  match env.daily location (scenarioToken scenario) with
  | none => .error (missingMsg location (scenarioToken scenario))
  | some df =>
    if start_index + max_days > df.length then
      .error (shortScanMsg location scenario df.length)
    else
      .ok (mergeMin acc.1 (listMin? (windowVals df)),
           mergeMax acc.2 (listMax? (windowVals df)))

/-- The (location, scenario) pairs visited by the scan, in program
order. -/
def scanPairs : List (String × String) :=
  all_locations.flatMap (fun loc => scenarios.map (fun sc => (loc, sc)))

/-- The scan loop over a list of (location, scenario) pairs. -/
def rangeScanOver (env : Env) :
    List (String × String) → (Option ℚ × Option ℚ) →
    Except String (Option ℚ × Option ℚ)
  | [], acc => .ok acc
  | p :: rest, acc =>
    match scanOne env p.1 p.2 acc with
    | .error e => .error e
    | .ok acc' => rangeScanOver env rest acc'

/-- The full Range Scanner: scan all pairs starting from
(`float('inf')`, `float('-inf')`), then pad by 2 on each side. -/
def rangeScan (env : Env) : Except String (Option ℚ × Option ℚ) :=
  match rangeScanOver env scanPairs (none, none) with
  | .error e => .error e
  | .ok (a, b) => .ok (a.map (fun v => v - 2), b.map (fun v => v + 2))

/-- The values a given pair contributes to the scan (empty if the file
is missing; the scan would have failed in that case anyway). -/
def pairVals (env : Env) (p : String × String) : List ℚ :=
  match env.daily p.1 (scenarioToken p.2) with
  | some df => windowVals df
  | none => []

/-- All values scanned across a list of (location, scenario) pairs. -/
def allScanVals (env : Env) (ps : List (String × String)) : List ℚ :=
  ps.flatMap (pairVals env)

/-- A pair passes the Range Scanner's checks: its file exists and its
series has at least `start_index + max_days` entries. -/
def scanPairOk (env : Env) (p : String × String) : Prop :=
  ∃ df, env.daily p.1 (scenarioToken p.2) = some df ∧
    start_index + max_days ≤ df.length

/-- Boolean success test for an `Except` result. -/
def exOk {α : Type} : Except String α → Bool
  | .ok _ => true
  | .error _ => false

/-! ## Record Loader: phenology extraction (script lines 113–143) -/

/-- The phenology record extracted for one (location, cultivar):
maturity and flowering day counts for the two scenarios, already
rounded to whole days. -/
structure Phen where
  mat245 : ℤ
  mat585 : ℤ
  flo245 : ℤ
  flo585 : ℤ
deriving DecidableEq

/-- Maturity day count for a scenario label. -/
def Phen.maturity (p : Phen) (scenario : String) : ℤ :=
  if scenario = "ssp245" then p.mat245 else p.mat585

/-- Flowering day count for a scenario label. -/
def Phen.flowering (p : Phen) (scenario : String) : ℤ :=
  if scenario = "ssp245" then p.flo245 else p.flo585

/-- The summary-sheet cell at a given row for a given field. -/
def cellOf (mean_df : List MeanRow) (r : ℕ) (field : MeanRow → Option ℚ) : Option ℚ :=
  (mean_df.get? r).bind field

/-- Access to the designated summary row (`mean_df.iloc[row_idx]`);
a row index past the end is an IndexError. -/
def rowAt (location cultivar scenario : String)
    (mean_df : List MeanRow) : Except String MeanRow :=
  match mean_df.get? (row_indices cultivar scenario) with
  | none => .error ("Row " ++ toString (row_indices cultivar scenario + 1)
      ++ " missing in " ++ location)
  | some row => .ok row

/-- Validation of one designated summary row (script lines 122–133):
the stripped first-column label must equal the encoded scenario token,
and neither phenology cell may be NaN (FloweringDAS checked first). -/
def validateRow (location cultivar scenario : String)
    (mean_df : List MeanRow) : Except String Unit :=
  rowAt location cultivar scenario mean_df >>= fun row =>
  if pyStrip row.label ≠ scenarioToken scenario then
    .error ("Row " ++ toString (row_indices cultivar scenario + 1)
      ++ " in " ++ location ++ " does not contain expected scenario")
  else if row.floweringDAS.isNone then
    .error ("NaN in FloweringDAS at row "
      ++ toString (row_indices cultivar scenario + 1)
      ++ " (" ++ cultivar ++ ", " ++ scenario ++ ") in " ++ location)
  else if row.maturityDAS.isNone then
    .error ("NaN in MaturityDAS at row "
      ++ toString (row_indices cultivar scenario + 1)
      ++ " (" ++ cultivar ++ ", " ++ scenario ++ ") in " ++ location)
  else .ok ()

/-- Loading of the phenology record for one (location, cultivar): the
row-count check, the two per-scenario row validations in scenario
order, then extraction with `int(round(...))`.  The `getD 0` defaults
are unreachable: validation has established that the cells exist and
are not NaN. -/
def loadPhenology (location cultivar : String)
    (mean_df : List MeanRow) : Except String Phen :=
  let maxRow := max (row_indices cultivar "ssp245") (row_indices cultivar "ssp585")
  if mean_df.length ≤ maxRow then
    .error ("Sheet " ++ location ++ " has " ++ toString mean_df.length
      ++ " rows, need at least " ++ toString (maxRow + 1))
  else
    validateRow location cultivar "ssp245" mean_df >>= fun _ =>
    validateRow location cultivar "ssp585" mean_df >>= fun _ =>
    .ok { mat245 := pyRound ((cellOf mean_df (row_indices cultivar "ssp245") MeanRow.maturityDAS).getD 0)
          mat585 := pyRound ((cellOf mean_df (row_indices cultivar "ssp585") MeanRow.maturityDAS).getD 0)
          flo245 := pyRound ((cellOf mean_df (row_indices cultivar "ssp245") MeanRow.floweringDAS).getD 0)
          flo585 := pyRound ((cellOf mean_df (row_indices cultivar "ssp585") MeanRow.floweringDAS).getD 0) }

/-! ## Record Loader: flowering variability (script lines 145–150) -/

/-- Sample variance (pandas `ddof=1`) of a list of rationals; `none`
models the NaN returned for fewer than two values.  The script's
displayed `± std` is the square root of this value. -/
def sampleVar (xs : List ℚ) : Option ℚ :=
  if xs.length ≤ 1 then none
  else
    let n : ℚ := xs.length
    let mean := xs.sum / n
    some ((xs.map (fun x => (x - mean) ^ 2)).sum / (n - 1))

/-- The ensemble values the code feeds to `.std()`: slice rows `4:` of
the data frame, then coerce the `FloweringDAS` column to numeric, with
NaN entries skipped by `.std()`. -/
def codeFloweringVals (raw : List RawCell) : List ℚ :=
  (raw.drop 4).filterMap toNumericCoerce

/-- Sample variance of the ensemble flowering values of one future
file, as computed by the script (its square root is displayed). -/
def floweringVarOfFile (raw : List RawCell) : Option ℚ :=
  sampleVar (codeFloweringVals raw)

/-- Loading of the flowering variability for one (cultivar, location,
scenario): read the future ensemble file and reduce its `FloweringDAS`
column. -/
def loadFloweringVar (env : Env) (cultivar location scenario : String) :
    Except String (Option ℚ) :=
  match env.future cultivar location scenario with
  | none => .error ("Missing file: future " ++ cultivar ++ " "
      ++ location ++ " " ++ scenario)
  | some raw => .ok (floweringVarOfFile raw)

/-- Modelled from the spec (refinement target for the variability
claim): coerce the whole `FloweringDAS` column to numeric, skip the
first four rows, and keep the remaining present entries — the list
whose sample standard deviation the spec calls the displayed
variability. -/
def specFloweringVals (raw : List RawCell) : List ℚ :=
  ((raw.map toNumericCoerce).drop 4).filterMap id

/-! ## Chart Composer (script lines 99–218) -/

/-- The flowering marker/label drawn for one scenario on one subplot:
the vertical line at the flowering day, the label anchor (midpoint of
the two temperatures at the accessed index, plus the draw-order
offset), the text x position, and the variance whose square root is
displayed after `±`. -/
structure FlowerMark where
  x : ℤ
  yAnchor : ℚ
  xText : ℤ
  variance : Option ℚ
deriving DecidableEq

/-- The maturity marker/label drawn for one scenario on one subplot. -/
structure MatMark where
  x : ℤ
  y : ℚ
deriving DecidableEq

/-- Everything drawn for one scenario on one subplot: the two
temperature curves as explicit (day, temperature) point lists and the
optional markers. -/
structure ScenarioPlot where
  scenario : String
  mintCurve : List (ℤ × ℚ)
  maxtCurve : List (ℤ × ℚ)
  flower : Option FlowerMark
  maturityMark : Option MatMark
deriving DecidableEq

/-- One subplot (location × cultivar) with its axis ranges; `ylim`
components are `Option ℚ` since the scanner's running extrema start at
infinities. -/
structure Subplot where
  location : String
  cultivar : String
  plots : List ScenarioPlot
  xlim : ℚ × ℚ
  ylim : Option ℚ × Option ℚ
deriving DecidableEq

/-- Reading and slicing of a daily series inside the subplot loop
(script lines 160–169): missing-file check, length check against
`start_index + max_maturity_das`, then the two column slices
`iloc[start_index : start_index + max_maturity_das]`. -/
def readSeriesWindow (env : Env) (location scLabelToken : String)
    (maxM : ℤ) : Except String (List ℚ × List ℚ) :=
  match env.daily location scLabelToken with
  | none => .error ("Missing file: " ++ dailyAvgPath location scLabelToken)
  | some df =>
    if (start_index : ℤ) + maxM > (df.length : ℤ) then
      .error ("Only " ++ toString df.length ++ " days in "
        ++ dailyAvgPath location scLabelToken
        ++ ", need " ++ toString ((start_index : ℤ) + maxM + 1))
    else
      .ok (pySlice (df.map DailyRow.avg_mint) (start_index : ℤ) ((start_index : ℤ) + maxM),
           pySlice (df.map DailyRow.avg_maxt) (start_index : ℤ) ((start_index : ℤ) + maxM))

/-- The flowering marker logic for one scenario (script lines
183–196): guarded by `flowering ≤ maturity`; the accessed array index
is `flowering - 1`, with Python negative-index semantics; an
out-of-range access is an IndexError. -/
def flowerMarkOf (idx : ℕ) (scLabel : String) (ph : Phen)
    (fvar : Option ℚ) (mint maxt : List ℚ) : Except String (Option FlowerMark) :=
  if ph.flowering scLabel ≤ ph.maturity scLabel then
    match pyGet mint (ph.flowering scLabel - 1),
          pyGet maxt (ph.flowering scLabel - 1) with
    | some a, some b =>
      let xOff : ℤ := if |ph.flowering "ssp245" - ph.flowering "ssp585"| < 20 then 10 else 5
      .ok (some { x := ph.flowering scLabel,
                  yAnchor := (a + b) / 2 + (idx : ℚ) * 6,
                  xText := ph.flowering scLabel + xOff,
                  variance := fvar })
    | _, _ => .error "IndexError: flowering index out of bounds"
  else .ok none

/-- The maturity marker logic for one scenario (script lines 198–208):
guarded by `maturity ≤ max_maturity_das` (true by construction), with
the accessed index `maturity - 1` under Python semantics. -/
def matMarkOf (scLabel : String) (ph : Phen) (mint : List ℚ)
    (maxM : ℤ) : Except String (Option MatMark) :=
  if ph.maturity scLabel ≤ maxM then
    match pyGet mint (ph.maturity scLabel - 1) with
    | some a =>
      .ok (some { x := ph.maturity scLabel,
                  y := a - (if scLabel = "ssp245" then 1 else -1) })
    | none => .error "IndexError: maturity index out of bounds"
  else .ok none

/-- The plotted day axis `range(1, m + 1)`: the days `1, 2, ..., m`
(empty when `m ≤ 0`). -/
def daysList (m : ℤ) : List ℤ :=
  (List.range m.toNat).map (fun i : ℕ => (i : ℤ) + 1)

/-- Drawing of one scenario on one subplot (script lines 156–208):
read and slice the series, truncate days and temperatures to this
scenario's own maturity day count, plot (a length mismatch between x
and y is a plotting-library error), then the two markers. -/
def composeScenario (env : Env) (location : String) (idx : ℕ)
    (scLabel : String) (ph : Phen) (fvar : Option ℚ) :
    Except String ScenarioPlot :=
  let maxM : ℤ := max (ph.maturity "ssp245") (ph.maturity "ssp585")
  readSeriesWindow env location (scenarioToken scLabel) maxM >>= fun w =>
  let dslice := pyTakeTo (daysList maxM) (ph.maturity scLabel)
  let mslice := pyTakeTo w.1 (ph.maturity scLabel)
  let xslice := pyTakeTo w.2 (ph.maturity scLabel)
  if dslice.length ≠ mslice.length ∨ dslice.length ≠ xslice.length then
    .error "ValueError: x and y must have same first dimension"
  else
    flowerMarkOf idx scLabel ph fvar w.1 w.2 >>= fun fl =>
    matMarkOf scLabel ph w.1 maxM >>= fun mm =>
    .ok { scenario := scLabel,
          mintCurve := dslice.zip mslice,
          maxtCurve := dslice.zip xslice,
          flower := fl,
          maturityMark := mm }

/-- Composition of one subplot (location × cultivar): phenology
validation and extraction, the two ensemble variability loads, then
the two scenarios drawn in fixed order. -/
def composeSubplot (env : Env) (ylim : Option ℚ × Option ℚ)
    (location cultivar : String) (mean_df : List MeanRow) :
    Except String Subplot :=
  loadPhenology location cultivar mean_df >>= fun ph =>
  loadFloweringVar env cultivar location "ssp245" >>= fun v245 =>
  loadFloweringVar env cultivar location "ssp585" >>= fun v585 =>
  composeScenario env location 0 "ssp245" ph v245 >>= fun p1 =>
  composeScenario env location 1 "ssp585" ph v585 >>= fun p2 =>
  .ok { location := location, cultivar := cultivar,
        plots := [p1, p2], xlim := (0, 200), ylim := ylim }

/-- Processing of one location (script lines 106–218): read its
summary sheet, then draw the two cultivars' subplots in order.  The
first component lists the subplots whose drawing completed; the second
is the error that aborted the run, if any.  A failure while handling
the second cultivar leaves the first cultivar's subplot already
drawn. -/
def composeLocation (env : Env) (ylim : Option ℚ × Option ℚ)
    (location : String) : List Subplot × Option String :=
  match env.meanSheet location with
  | none => ([], some ("Error reading sheet " ++ location))
  | some mean_df =>
    match composeSubplot env ylim location "260" mean_df with
    | .error e => ([], some e)
    | .ok s1 =>
      match composeSubplot env ylim location "704" mean_df with
      | .error e => ([s1], some e)
      | .ok s2 => ([s1, s2], none)

/-- Processing of one location group (one 2×2 grid). -/
def composeGroup (env : Env) (ylim : Option ℚ × Option ℚ) :
    List String → List Subplot × Option String
  | [] => ([], none)
  | l :: rest =>
    match composeLocation env ylim l with
    | (sps, some e) => (sps, some e)
    | (sps, none) =>
      let r := composeGroup env ylim rest
      (sps ++ r.1, r.2)

/-- Processing of all location groups, producing one grid (list of
subplots) per group, aborting on the first error. -/
def runGroups (env : Env) (ylim : Option ℚ × Option ℚ) :
    List (List String) → Except String (List (List Subplot))
  | [] => .ok []
  | g :: rest =>
    match composeGroup env ylim g with
    | (_, some e) => .error e
    | (sps, none) =>
      match runGroups env ylim rest with
      | .error e => .error e
      | .ok gs => .ok (sps :: gs)

/-- The whole script: Range Scanner first, then all grids with the
shared padded range. -/
def runProgram (env : Env) : Except String (List (List Subplot)) :=
  match rangeScan env with
  | .error e => .error e
  | .ok ylim => runGroups env ylim location_groups

/-- The scenario plot drawn for a given scenario label on a subplot. -/
def findPlot (sp : Subplot) (scenario : String) : Option ScenarioPlot :=
  sp.plots.find? (fun r => r.scenario = scenario)

/-! ## Concrete test data -/

/-- A daily series of exactly `start_index + max_days` flat rows. -/
def dfW : List DailyRow := List.replicate 342 ⟨10, 30⟩

/-- A summary row that passes no validation (placeholder rows of the
sheet). -/
def junkRow : MeanRow := ⟨"", none, none⟩

/-- A valid ssp245 summary row: flowering day cell 2, maturity cell 3. -/
def r245 : MeanRow := ⟨"(2071-2090)(ssp245)", some 2, some 3⟩

/-- A valid ssp585 summary row: flowering day cell 2, maturity cell 4. -/
def r585 : MeanRow := ⟨"(2071-2090)(ssp585)", some 2, some 4⟩

/-- A fully valid 17-row summary sheet (designated rows 3, 6, 13, 16). -/
def sheetW : List MeanRow :=
  [junkRow, junkRow, junkRow, r245, junkRow, junkRow, r585,
   junkRow, junkRow, junkRow, junkRow, junkRow, junkRow,
   r245, junkRow, junkRow, r585]

/-- A future-run `FloweringDAS` column: four preamble rows, then the
ensemble members 10 and 12 (sample variance 2). -/
def rawW : List RawCell :=
  [.num 1, .num 2, .num 3, .num 4, .num 10, .num 12]

/-- A fully valid environment: every daily series is `dfW`, every
sheet is `sheetW`, every future file is `rawW`. -/
def envW : Env :=
  { daily := fun _ _ => some dfW
    meanSheet := fun _ => some sheetW
    future := fun _ _ _ => some rawW }

/-- A summary row whose first-column label does not carry the expected
scenario token. -/
def rowBad : MeanRow := ⟨"BAD", some 2, some 3⟩

/-- A 17-row sheet whose cultivar-704 / ssp245 row (row index 13) has
a mismatched label while every other designated row is valid. -/
def sheetC7 : List MeanRow :=
  [junkRow, junkRow, junkRow, r245, junkRow, junkRow, r585,
   junkRow, junkRow, junkRow, junkRow, junkRow, junkRow,
   rowBad, junkRow, junkRow, r585]

/-- A daily series long enough for the chart composer (150 rows). -/
def dfC7 : List DailyRow := List.replicate 150 ⟨10, 30⟩

/-- An environment valid everywhere except the mismatched 704/ssp245
row label of the sheet. -/
def envC7 : Env :=
  { daily := fun _ _ => some dfC7
    meanSheet := fun _ => some sheetC7
    future := fun _ _ _ => some rawW }

/-- A daily series whose plotted window (days 1–3) carries the
temperatures (1,2), (3,4), (5,6), after 142 filler rows. -/
def dfC10 : List DailyRow :=
  List.replicate 142 ⟨0, 0⟩ ++ [⟨1, 2⟩, ⟨3, 4⟩, ⟨5, 6⟩]

/-- A summary row whose flowering cell 3/10 rounds to day 0 and whose
maturity cell is 3. -/
def rowFlower0 (scenario : String) : MeanRow :=
  ⟨scenarioToken scenario, some (3/10), some 3⟩

/-- A 7-row sheet for cultivar 260 whose flowering cells round to 0. -/
def sheetC10 : List MeanRow :=
  [junkRow, junkRow, junkRow, rowFlower0 "ssp245", junkRow, junkRow,
   rowFlower0 "ssp585"]

/-- The environment exercising a flowering day count of 0. -/
def envC10 : Env :=
  { daily := fun _ _ => some dfC10
    meanSheet := fun _ => some sheetC10
    future := fun _ _ _ => some rawW }

/-- A daily series of only 100 rows, too short for the Range Scanner. -/
def dfShort : List DailyRow := List.replicate 100 ⟨10, 30⟩

/-- An environment whose daily series are all too short. -/
def envShort : Env :=
  { daily := fun _ _ => some dfShort
    meanSheet := fun _ => none
    future := fun _ _ _ => none }

/-- The phenology record loaded from `sheetW` for either cultivar:
maturity 3 and 4, flowering 2 and 2. -/
def phW : Phen := ⟨3, 4, 2, 2⟩

/-- The subplot composed for (Dezful, 260) in `envW`. -/
def spW : Subplot :=
  match composeSubplot envW (some 8, some 32) "Dezful" "260" sheetW with
  | .ok sp => sp
  | .error _ => ⟨"", "", [], (0, 0), (none, none)⟩

/-- All grids produced by the drawing pass of `envW` under the padded
range (8, 32). -/
def gridsW : List (List Subplot) :=
  match runGroups envW (some 8, some 32) location_groups with
  | .ok gs => gs
  | .error _ => []

/-! ## Algebra of the running minimum / maximum -/

theorem foldl_min_shift (bs : List ℚ) : ∀ x b : ℚ,
    List.foldl min (min x b) bs = min x (List.foldl min b bs) := by
  induction bs with
  | nil => intro x b; rfl
  | cons c bs ih =>
    intro x b
    simp only [List.foldl_cons]
    rw [min_assoc, ih]

theorem foldl_max_shift (bs : List ℚ) : ∀ x b : ℚ,
    List.foldl max (max x b) bs = max x (List.foldl max b bs) := by
  induction bs with
  | nil => intro x b; rfl
  | cons c bs ih =>
    intro x b
    simp only [List.foldl_cons]
    rw [max_assoc, ih]

@[simp] theorem mergeMin_none_left (x : Option ℚ) : mergeMin none x = x := by
  cases x <;> rfl

@[simp] theorem mergeMin_none_right (x : Option ℚ) : mergeMin x none = x := by
  cases x <;> rfl

@[simp] theorem mergeMax_none_left (x : Option ℚ) : mergeMax none x = x := by
  cases x <;> rfl

@[simp] theorem mergeMax_none_right (x : Option ℚ) : mergeMax x none = x := by
  cases x <;> rfl

theorem mergeMin_assoc (a b c : Option ℚ) :
    mergeMin (mergeMin a b) c = mergeMin a (mergeMin b c) := by
  cases a <;> cases b <;> cases c <;> simp [mergeMin, min_assoc]

theorem mergeMax_assoc (a b c : Option ℚ) :
    mergeMax (mergeMax a b) c = mergeMax a (mergeMax b c) := by
  cases a <;> cases b <;> cases c <;> simp [mergeMax, max_assoc]

theorem mergeMin_left_comm (a b c : Option ℚ) :
    mergeMin a (mergeMin b c) = mergeMin b (mergeMin a c) := by
  cases a <;> cases b <;> cases c <;> simp [mergeMin, min_left_comm, min_comm]

theorem mergeMax_left_comm (a b c : Option ℚ) :
    mergeMax a (mergeMax b c) = mergeMax b (mergeMax a c) := by
  cases a <;> cases b <;> cases c <;> simp [mergeMax, max_left_comm, max_comm]

@[simp] theorem mergeMin_self (a : Option ℚ) : mergeMin a a = a := by
  cases a <;> simp [mergeMin]

@[simp] theorem mergeMax_self (a : Option ℚ) : mergeMax a a = a := by
  cases a <;> simp [mergeMax]

theorem listMin?_append (A B : List ℚ) :
    listMin? (A ++ B) = mergeMin (listMin? A) (listMin? B) := by
  cases A with
  | nil => simp [listMin?]
  | cons a as =>
    cases B with
    | nil => simp [listMin?]
    | cons b bs =>
      simp only [List.cons_append, listMin?, List.foldl_append, List.foldl_cons]
      rw [foldl_min_shift]
      rfl

theorem listMax?_append (A B : List ℚ) :
    listMax? (A ++ B) = mergeMax (listMax? A) (listMax? B) := by
  cases A with
  | nil => simp [listMax?]
  | cons a as =>
    cases B with
    | nil => simp [listMax?]
    | cons b bs =>
      simp only [List.cons_append, listMax?, List.foldl_append, List.foldl_cons]
      rw [foldl_max_shift]
      rfl

theorem listMin?_cons (a : ℚ) (l : List ℚ) :
    listMin? (a :: l) = mergeMin (some a) (listMin? l) := by
  have h := listMin?_append [a] l
  simpa [listMin?] using h

theorem listMax?_cons (a : ℚ) (l : List ℚ) :
    listMax? (a :: l) = mergeMax (some a) (listMax? l) := by
  have h := listMax?_append [a] l
  simpa [listMax?] using h

theorem listMin?_perm {A B : List ℚ} (h : A.Perm B) :
    listMin? A = listMin? B := by
  induction h with
  | nil => rfl
  | cons x _ ih => rw [listMin?_cons, listMin?_cons, ih]
  | swap x y l =>
    rw [listMin?_cons, listMin?_cons, listMin?_cons, listMin?_cons,
      mergeMin_left_comm]
  | trans _ _ ih₁ ih₂ => rw [ih₁, ih₂]

theorem listMax?_perm {A B : List ℚ} (h : A.Perm B) :
    listMax? A = listMax? B := by
  induction h with
  | nil => rfl
  | cons x _ ih => rw [listMax?_cons, listMax?_cons, ih]
  | swap x y l =>
    rw [listMax?_cons, listMax?_cons, listMax?_cons, listMax?_cons,
      mergeMax_left_comm]
  | trans _ _ ih₁ ih₂ => rw [ih₁, ih₂]

/-! ## Characterisation of the Range Scanner loop -/

theorem scanOne_ok {env : Env} {location scenario : String} {df : List DailyRow}
    (hdf : env.daily location (scenarioToken scenario) = some df)
    (hlen : start_index + max_days ≤ df.length) (acc : Option ℚ × Option ℚ) :
    scanOne env location scenario acc =
      .ok (mergeMin acc.1 (listMin? (windowVals df)),
           mergeMax acc.2 (listMax? (windowVals df))) := by
  unfold scanOne
  rw [hdf]
  simp [Nat.not_lt.mpr hlen]

theorem scanOne_short {env : Env} {location scenario : String} {df : List DailyRow}
    (hdf : env.daily location (scenarioToken scenario) = some df)
    (hlen : df.length < start_index + max_days) (acc : Option ℚ × Option ℚ) :
    scanOne env location scenario acc = .error (shortScanMsg location scenario df.length) := by
  unfold scanOne
  rw [hdf]
  simp [hlen]

theorem scanOne_err {env : Env} {location scenario : String}
    (hno : ¬ scanPairOk env (location, scenario)) (acc : Option ℚ × Option ℚ) :
    ∃ e, scanOne env location scenario acc = .error e := by
  unfold scanOne
  cases hdf : env.daily location (scenarioToken scenario) with
  | none => exact ⟨_, rfl⟩
  | some df =>
    have hlen : df.length < start_index + max_days := by
      by_contra hge
      exact hno ⟨df, hdf, Nat.le_of_not_lt hge⟩
    simp [hlen]

theorem pairVals_eq {env : Env} {p : String × String} {df : List DailyRow}
    (hdf : env.daily p.1 (scenarioToken p.2) = some df) :
    pairVals env p = windowVals df := by
  unfold pairVals
  rw [hdf]

theorem rangeScanOver_ok_iff (env : Env) (ps : List (String × String)) :
    ∀ (acc v : Option ℚ × Option ℚ),
      (rangeScanOver env ps acc = .ok v ↔
        ((∀ p ∈ ps, scanPairOk env p) ∧
          v = (mergeMin acc.1 (listMin? (allScanVals env ps)),
               mergeMax acc.2 (listMax? (allScanVals env ps))))) := by
  induction ps with
  | nil =>
    intro acc v
    simp [rangeScanOver, allScanVals, listMin?, listMax?]
    constructor
    · intro h; exact h.symm
    · intro h; exact h.symm
  | cons p rest ih =>
    intro acc v
    by_cases hp : scanPairOk env p
    · obtain ⟨df, hdf, hlen⟩ := hp
      have hstep := @scanOne_ok env p.1 p.2 df hdf hlen acc
      have hvals : allScanVals env (p :: rest) = windowVals df ++ allScanVals env rest := by
        simp [allScanVals, List.flatMap_cons, @pairVals_eq env p df hdf]
      constructor
      · intro h
        rw [rangeScanOver, hstep] at h
        rcases (ih _ v).mp h with ⟨hall, hv⟩
        refine ⟨fun q hq => ?_, ?_⟩
        · rcases List.mem_cons.mp hq with hq | hq
          · exact hq ▸ ⟨df, hdf, hlen⟩
          · exact hall q hq
        · rw [hvals, hv]
          simp only [listMin?_append, listMax?_append]
          rw [mergeMin_assoc, mergeMax_assoc]
      · rintro ⟨hall, hv⟩
        rw [rangeScanOver, hstep]
        refine (ih _ v).mpr ⟨fun q hq => hall q (List.mem_cons_of_mem p hq), ?_⟩
        rw [hvals] at hv
        rw [hv]
        simp only [listMin?_append, listMax?_append]
        rw [mergeMin_assoc, mergeMax_assoc]
    · obtain ⟨e, he⟩ := @scanOne_err env p.1 p.2 hp acc
      constructor
      · intro h
        rw [rangeScanOver] at h
        rw [he] at h
        cases h
      · rintro ⟨hall, _⟩
        exact absurd (hall p (List.mem_cons_self p rest)) hp

/-! ## Rounding -/

theorem ratFloor_eq (q : ℚ) : ratFloor q = ⌊q⌋ := by
  rw [Rat.floor_def]
  rfl

theorem pyRound_nearest (q : ℚ) : |(pyRound q : ℚ) - q| ≤ 1/2 := by
  have h1 : ((⌊q⌋ : ℤ) : ℚ) ≤ q := Int.floor_le q
  have h2 : q < ⌊q⌋ + 1 := Int.lt_floor_add_one q
  unfold pyRound
  simp only [ratFloor_eq]
  by_cases ha : q - ((⌊q⌋ : ℤ) : ℚ) < 1/2
  · rw [if_pos ha, abs_sub_comm, abs_of_nonneg (by linarith)]
    linarith
  · rw [if_neg ha]
    by_cases hb : (1 : ℚ)/2 < q - ((⌊q⌋ : ℤ) : ℚ)
    · rw [if_pos hb]
      have hc : ((⌊q⌋ + 1 : ℤ) : ℚ) = ((⌊q⌋ : ℤ) : ℚ) + 1 := by push_cast; ring
      rw [hc, abs_of_nonneg (by linarith)]
      linarith
    · rw [if_neg hb]
      have heq : q - ((⌊q⌋ : ℤ) : ℚ) = 1/2 := le_antisymm (not_lt.mp hb) (not_lt.mp ha)
      by_cases hm : ⌊q⌋ % 2 = 0
      · rw [if_pos hm, abs_sub_comm, abs_of_nonneg (by linarith)]
        linarith
      · rw [if_neg hm]
        have hc : ((⌊q⌋ + 1 : ℤ) : ℚ) = ((⌊q⌋ : ℤ) : ℚ) + 1 := by push_cast; ring
        rw [hc, abs_of_nonneg (by linarith)]
        linarith

/-! ## Claim theorems about the Range Scanner -/

/-- C2.  A daily series shorter than `start_index + max_days` makes
the Range Scanner raise the `IndexError` whose message (by definition
of `shortScanMsg`) names the offending file, and the whole scan then
yields no range value at all; conversely a series with at least
`start_index + max_days` entries passes the check and the step
succeeds. -/
theorem claim_C2_scan_length_check (env : Env) (loc sc : String)
    (df : List DailyRow) (acc : Option ℚ × Option ℚ)
    (hmem : (loc, sc) ∈ scanPairs)
    (hdf : env.daily loc (scenarioToken sc) = some df) :
    (df.length < start_index + max_days →
      scanOne env loc sc acc = .error (shortScanMsg loc sc df.length) ∧
      exOk (rangeScan env) = false) ∧
    (start_index + max_days ≤ df.length →
      exOk (scanOne env loc sc acc) = true) := by
  constructor
  · intro hshort
    refine ⟨scanOne_short hdf hshort acc, ?_⟩
    cases hso : rangeScanOver env scanPairs (none, none) with
    | error e =>
      unfold rangeScan
      rw [hso]
      rfl
    | ok w =>
      exfalso
      rcases (rangeScanOver_ok_iff env scanPairs _ _).mp hso with ⟨hall, _⟩
      rcases hall _ hmem with ⟨df', hdf', hlen'⟩
      rw [hdf] at hdf'
      injection hdf' with hdd
      subst hdd
      exact absurd hlen' (Nat.not_le.mpr hshort)
  · intro hle
    rw [scanOne_ok hdf hle acc]
    rfl

/-- C8 (amended).  Both consumers of a daily series reject it exactly
when its length is strictly below `start_index` plus the days they
need (not when it fails to strictly exceed that bound): the Range
Scanner accepts iff `start_index + max_days ≤ length`, and the chart
composer's series load accepts iff
`start_index + max_maturity_das ≤ length`. -/
theorem claim_C8_length_threshold (env : Env) (loc sc : String)
    (df : List DailyRow) (acc : Option ℚ × Option ℚ) (maxM : ℤ)
    (hdf : env.daily loc (scenarioToken sc) = some df) :
    (exOk (scanOne env loc sc acc) = true ↔
      start_index + max_days ≤ df.length) ∧
    (exOk (readSeriesWindow env loc (scenarioToken sc) maxM) = true ↔
      (start_index : ℤ) + maxM ≤ (df.length : ℤ)) := by
  constructor
  · by_cases hle : start_index + max_days ≤ df.length
    · rw [scanOne_ok hdf hle acc]
      simp [exOk, hle]
    · rw [scanOne_short hdf (Nat.lt_of_not_le hle) acc]
      simp [exOk, hle]
  · unfold readSeriesWindow
    simp only [hdf]
    by_cases hle : (start_index : ℤ) + maxM ≤ (df.length : ℤ)
    · have hnot : ¬ ((start_index : ℤ) + maxM > (df.length : ℤ)) := not_lt.mpr hle
      simp [hnot, exOk, hle]
    · have hgt : (start_index : ℤ) + maxM > (df.length : ℤ) := lt_of_not_le hle
      simp [hgt, exOk, hle]

/-- C9.  The Range Scanner loop is a pure reduction: visiting the
(location, scenario) pairs in any other order yields the same
(y_min, y_max) accumulator whenever the scan succeeds (and the
embedding is a function of its inputs, so identical inputs trivially
yield identical results). -/
theorem claim_C9_scan_order_independent (env : Env)
    (ps qs : List (String × String)) (acc v : Option ℚ × Option ℚ)
    (hperm : ps.Perm qs)
    (h : rangeScanOver env ps acc = .ok v) :
    rangeScanOver env qs acc = .ok v := by
  rcases (rangeScanOver_ok_iff env ps acc v).mp h with ⟨hall, hv⟩
  refine (rangeScanOver_ok_iff env qs acc v).mpr
    ⟨fun p hp => hall p (hperm.mem_iff.mpr hp), ?_⟩
  have hpv : (allScanVals env ps).Perm (allScanVals env qs) :=
    List.Perm.flatMap_right (pairVals env) hperm
  rw [hv, listMin?_perm hpv, listMax?_perm hpv]

/-! ## Inversion helpers for the record loader -/

theorem exBind_ok {α β : Type} {x : Except String α} {f : α → Except String β} {b : β} :
    (x >>= f = .ok b) ↔ (∃ a, x = .ok a ∧ f a = .ok b) := by
  cases x <;> simp [Bind.bind, Except.bind]

theorem exOk_false_iff {α : Type} (x : Except String α) :
    exOk x = false ↔ ∃ e, x = .error e := by
  cases x <;> simp [exOk]

theorem rowAt_ok {location cultivar scenario : String} {mean_df : List MeanRow}
    {row : MeanRow} (hrow : mean_df.get? (row_indices cultivar scenario) = some row) :
    rowAt location cultivar scenario mean_df = .ok row := by
  unfold rowAt
  rw [hrow]

theorem rowAt_ok_inv {location cultivar scenario : String} {mean_df : List MeanRow}
    {row : MeanRow} (h : rowAt location cultivar scenario mean_df = .ok row) :
    mean_df.get? (row_indices cultivar scenario) = some row := by
  unfold rowAt at h
  cases hg : mean_df.get? (row_indices cultivar scenario) with
  | none => rw [hg] at h; cases h
  | some r => rw [hg] at h; injection h with h; rw [h]

theorem validateRow_ok_inv {location cultivar scenario : String}
    {mean_df : List MeanRow} {u : Unit}
    (h : validateRow location cultivar scenario mean_df = .ok u)
    {row : MeanRow}
    (hrow : mean_df.get? (row_indices cultivar scenario) = some row) :
    pyStrip row.label = scenarioToken scenario ∧
    row.floweringDAS.isSome = true ∧ row.maturityDAS.isSome = true := by
  unfold validateRow at h
  rw [exBind_ok] at h
  obtain ⟨row', hr', hif⟩ := h
  have hrr : row' = row := by
    have hg := rowAt_ok_inv hr'
    rw [hrow] at hg
    injection hg with h'
    exact h'.symm
  rw [hrr] at hif
  by_cases h1 : pyStrip row.label ≠ scenarioToken scenario
  · rw [if_pos h1] at hif; cases hif
  · rw [if_neg h1] at hif
    by_cases h2 : row.floweringDAS.isNone
    · rw [if_pos h2] at hif; cases hif
    · rw [if_neg h2] at hif
      by_cases h3 : row.maturityDAS.isNone
      · rw [if_pos h3] at hif; cases hif
      · refine ⟨not_not.mp h1, ?_, ?_⟩
        · cases hv : row.floweringDAS with
          | none => exact absurd (by rw [hv]; rfl) h2
          | some q => rfl
        · cases hv : row.maturityDAS with
          | none => exact absurd (by rw [hv]; rfl) h3
          | some q => rfl

/-- Inversion of a successful phenology load: the record is exactly
the rounded cell contents, and both designated rows validated. -/
theorem loadPhenology_ok_inv {location cultivar : String}
    {mean_df : List MeanRow} {ph : Phen}
    (h : loadPhenology location cultivar mean_df = .ok ph) :
    (max (row_indices cultivar "ssp245") (row_indices cultivar "ssp585") < mean_df.length) ∧
    validateRow location cultivar "ssp245" mean_df = .ok () ∧
    validateRow location cultivar "ssp585" mean_df = .ok () ∧
    ph = { mat245 := pyRound ((cellOf mean_df (row_indices cultivar "ssp245") MeanRow.maturityDAS).getD 0)
           mat585 := pyRound ((cellOf mean_df (row_indices cultivar "ssp585") MeanRow.maturityDAS).getD 0)
           flo245 := pyRound ((cellOf mean_df (row_indices cultivar "ssp245") MeanRow.floweringDAS).getD 0)
           flo585 := pyRound ((cellOf mean_df (row_indices cultivar "ssp585") MeanRow.floweringDAS).getD 0) } := by
  unfold loadPhenology at h
  by_cases hlen : mean_df.length ≤ max (row_indices cultivar "ssp245") (row_indices cultivar "ssp585")
  · rw [if_pos hlen] at h; cases h
  · rw [if_neg hlen] at h
    rw [exBind_ok] at h
    obtain ⟨u1, hv1, h⟩ := h
    rw [exBind_ok] at h
    obtain ⟨u2, hv2, h⟩ := h
    injection h with h
    exact ⟨Nat.lt_of_not_le hlen, by cases u1; exact hv1, by cases u2; exact hv2, h.symm⟩

theorem loadPhenology_label_err {location cultivar scenario : String}
    {mean_df : List MeanRow} {row : MeanRow}
    (hsc : scenario ∈ scenarios)
    (hrow : mean_df.get? (row_indices cultivar scenario) = some row)
    (hbad : pyStrip row.label ≠ scenarioToken scenario) :
    exOk (loadPhenology location cultivar mean_df) = false := by
  cases hlp : loadPhenology location cultivar mean_df with
  | error e => rfl
  | ok ph =>
    exfalso
    obtain ⟨-, hv1, hv2, -⟩ := loadPhenology_ok_inv hlp
    have hsc' : scenario = "ssp245" ∨ scenario = "ssp585" := by
      simpa [scenarios] using hsc
    rcases hsc' with rfl | rfl
    · exact hbad (validateRow_ok_inv hv1 hrow).1
    · exact hbad (validateRow_ok_inv hv2 hrow).1

/-! ## Claim theorem: phenology extraction (C3) -/

/-- C3.  A successfully loaded phenology record holds, for each
scenario, exactly `int(round(cell))` of the corresponding summary
cells — integers within half a day of the raw cell values, i.e. the
nearest whole day (ties broken to even by Python's `round`). -/
theorem claim_C3_phenology_rounding (location cultivar : String)
    (mean_df : List MeanRow) (ph : Phen) (sc : String) (qm qf : ℚ)
    (h : loadPhenology location cultivar mean_df = .ok ph)
    (hsc : sc ∈ scenarios)
    (hm : cellOf mean_df (row_indices cultivar sc) MeanRow.maturityDAS = some qm)
    (hf : cellOf mean_df (row_indices cultivar sc) MeanRow.floweringDAS = some qf) :
    ph.maturity sc = pyRound qm ∧ ph.flowering sc = pyRound qf ∧
    |(pyRound qm : ℚ) - qm| ≤ 1/2 ∧ |(pyRound qf : ℚ) - qf| ≤ 1/2 := by
  obtain ⟨-, -, -, hph⟩ := loadPhenology_ok_inv h
  have hsc' : sc = "ssp245" ∨ sc = "ssp585" := by simpa [scenarios] using hsc
  subst hph
  rcases hsc' with rfl | rfl
  · rw [hm, hf]
    exact ⟨by simp [Phen.maturity], by simp [Phen.flowering],
      pyRound_nearest qm, pyRound_nearest qf⟩
  · rw [hm, hf]
    refine ⟨?_, ?_, pyRound_nearest qm, pyRound_nearest qf⟩
    · simp [Phen.maturity]
    · simp [Phen.flowering]

/-! ## Claim theorem: flowering variability (C6) -/

theorem code_spec_flowering_vals (raw : List RawCell) :
    codeFloweringVals raw = specFloweringVals raw := by
  unfold codeFloweringVals specFloweringVals
  rw [← List.map_drop, List.filterMap_map]
  rfl

/-- C6.  The variability the script computes for a future ensemble
file is the sample statistic (variance, whose square root is the
displayed standard deviation) of exactly the values the spec
describes: the `FloweringDAS` column coerced to numeric, the first
four data rows skipped, and non-numeric entries excluded. -/
theorem claim_C6_flowering_variability (env : Env)
    (cultivar location scenario : String) (raw : List RawCell)
    (h : env.future cultivar location scenario = some raw) :
    loadFloweringVar env cultivar location scenario =
      .ok (sampleVar (specFloweringVals raw)) := by
  unfold loadFloweringVar
  rw [h]
  show Except.ok (sampleVar (codeFloweringVals raw)) =
    Except.ok (sampleVar (specFloweringVals raw))
  rw [code_spec_flowering_vals]

/-! ## Python slice lemmas -/

theorem pyTakeTo_eq_take {α : Type} (xs : List α) (k : ℤ) (hk : 0 ≤ k) :
    pyTakeTo xs k = xs.take k.toNat := by
  unfold pyTakeTo pySlice pySliceIdx
  rw [if_neg (not_lt.mpr hk), if_neg (lt_irrefl (0 : ℤ))]
  simp only [Int.toNat_zero, Nat.zero_min, List.drop_zero]
  rcases Nat.le_total k.toNat xs.length with h | h
  · rw [Nat.min_eq_left h]
  · rw [Nat.min_eq_right h, List.take_length, List.take_of_length_le h]

theorem daysList_length (m : ℤ) : (daysList m).length = m.toNat := by
  unfold daysList
  rw [List.length_map, List.length_range]

theorem daysList_take (maxM m : ℤ) (hmm : m ≤ maxM) :
    (daysList maxM).take m.toNat = daysList m := by
  unfold daysList
  rw [← List.map_take, List.take_range, Nat.min_eq_left (Int.toNat_le_toNat hmm)]

/-! ## Inversion helpers for the chart composer -/

theorem composeScenario_ok_inv {env : Env} {location : String} {idx : ℕ}
    {scLabel : String} {ph : Phen} {fvar : Option ℚ} {p : ScenarioPlot}
    (h : composeScenario env location idx scLabel ph fvar = .ok p) :
    ∃ w fl mm,
      readSeriesWindow env location (scenarioToken scLabel)
        (max (ph.maturity "ssp245") (ph.maturity "ssp585")) = .ok w ∧
      (pyTakeTo (daysList (max (ph.maturity "ssp245") (ph.maturity "ssp585")))
          (ph.maturity scLabel)).length
        = (pyTakeTo w.1 (ph.maturity scLabel)).length ∧
      (pyTakeTo (daysList (max (ph.maturity "ssp245") (ph.maturity "ssp585")))
          (ph.maturity scLabel)).length
        = (pyTakeTo w.2 (ph.maturity scLabel)).length ∧
      flowerMarkOf idx scLabel ph fvar w.1 w.2 = .ok fl ∧
      matMarkOf scLabel ph w.1 (max (ph.maturity "ssp245") (ph.maturity "ssp585")) = .ok mm ∧
      p = { scenario := scLabel,
            mintCurve := (pyTakeTo (daysList (max (ph.maturity "ssp245") (ph.maturity "ssp585")))
                (ph.maturity scLabel)).zip (pyTakeTo w.1 (ph.maturity scLabel)),
            maxtCurve := (pyTakeTo (daysList (max (ph.maturity "ssp245") (ph.maturity "ssp585")))
                (ph.maturity scLabel)).zip (pyTakeTo w.2 (ph.maturity scLabel)),
            flower := fl,
            maturityMark := mm } := by
  unfold composeScenario at h
  rw [exBind_ok] at h
  obtain ⟨w, hw, h⟩ := h
  dsimp only at h
  by_cases hc :
      (pyTakeTo (daysList (max (ph.maturity "ssp245") (ph.maturity "ssp585")))
          (ph.maturity scLabel)).length
        ≠ (pyTakeTo w.1 (ph.maturity scLabel)).length ∨
      (pyTakeTo (daysList (max (ph.maturity "ssp245") (ph.maturity "ssp585")))
          (ph.maturity scLabel)).length
        ≠ (pyTakeTo w.2 (ph.maturity scLabel)).length
  · rw [if_pos hc] at h
    cases h
  · rw [if_neg hc] at h
    push_neg at hc
    rw [exBind_ok] at h
    obtain ⟨fl, hfl, h⟩ := h
    rw [exBind_ok] at h
    obtain ⟨mm, hmm, h⟩ := h
    injection h with h
    exact ⟨w, fl, mm, hw, hc.1, hc.2, hfl, hmm, h.symm⟩

theorem composeSubplot_ok_inv {env : Env} {ylim : Option ℚ × Option ℚ}
    {location cultivar : String} {mean_df : List MeanRow} {sp : Subplot}
    (h : composeSubplot env ylim location cultivar mean_df = .ok sp) :
    ∃ ph v245 v585 p1 p2,
      loadPhenology location cultivar mean_df = .ok ph ∧
      loadFloweringVar env cultivar location "ssp245" = .ok v245 ∧
      loadFloweringVar env cultivar location "ssp585" = .ok v585 ∧
      composeScenario env location 0 "ssp245" ph v245 = .ok p1 ∧
      composeScenario env location 1 "ssp585" ph v585 = .ok p2 ∧
      sp = { location := location, cultivar := cultivar,
             plots := [p1, p2], xlim := (0, 200), ylim := ylim } := by
  unfold composeSubplot at h
  rw [exBind_ok] at h; obtain ⟨ph, h1, h⟩ := h
  rw [exBind_ok] at h; obtain ⟨v245, h2, h⟩ := h
  rw [exBind_ok] at h; obtain ⟨v585, h3, h⟩ := h
  rw [exBind_ok] at h; obtain ⟨p1, h4, h⟩ := h
  rw [exBind_ok] at h; obtain ⟨p2, h5, h⟩ := h
  injection h with h
  exact ⟨ph, v245, v585, p1, p2, h1, h2, h3, h4, h5, h.symm⟩

theorem flowerMarkOf_ok_isSome {idx : ℕ} {scLabel : String} {ph : Phen}
    {fvar : Option ℚ} {mint maxt : List ℚ} {fl : Option FlowerMark}
    (h : flowerMarkOf idx scLabel ph fvar mint maxt = .ok fl) :
    fl.isSome = decide (ph.flowering scLabel ≤ ph.maturity scLabel) := by
  unfold flowerMarkOf at h
  by_cases hg : ph.flowering scLabel ≤ ph.maturity scLabel
  · rw [if_pos hg] at h
    cases hm1 : pyGet mint (ph.flowering scLabel - 1) with
    | none => rw [hm1] at h; cases h
    | some a =>
      cases hm2 : pyGet maxt (ph.flowering scLabel - 1) with
      | none => rw [hm1, hm2] at h; cases h
      | some b =>
        rw [hm1, hm2] at h
        injection h with h
        rw [← h]
        simp [hg]
  · rw [if_neg hg] at h
    injection h with h
    rw [← h]
    simp [hg]

theorem findPlot_pair (sp : Subplot) (p1 p2 : ScenarioPlot)
    (hplots : sp.plots = [p1, p2])
    (h1 : p1.scenario = "ssp245") (h2 : p2.scenario = "ssp585") :
    findPlot sp "ssp245" = some p1 ∧ findPlot sp "ssp585" = some p2 := by
  unfold findPlot
  rw [hplots]
  constructor
  · exact List.find?_cons_of_pos _ (by simp [h1])
  · rw [List.find?_cons_of_neg _ (by simp [h1])]
    exact List.find?_cons_of_pos _ (by simp [h2])

theorem curve_shape {w : List ℚ} {maxM m : ℤ} (hm : 0 ≤ m) (hmm : m ≤ maxM)
    (hlen : (pyTakeTo (daysList maxM) m).length = (pyTakeTo w m).length) :
    ((pyTakeTo (daysList maxM) m).zip (pyTakeTo w m)).map Prod.fst = daysList m ∧
    (((pyTakeTo (daysList maxM) m).zip (pyTakeTo w m)).length : ℤ) = m := by
  have hd : pyTakeTo (daysList maxM) m = daysList m := by
    rw [pyTakeTo_eq_take _ _ hm, daysList_take maxM m hmm]
  constructor
  · rw [List.map_fst_zip _ _ (le_of_eq hlen), hd]
  · rw [List.length_zip, ← hlen, Nat.min_self, hd, daysList_length,
      Int.toNat_of_nonneg hm]

/-! ## Claim theorems about the plotted curves (C4, C5) -/

/-- C4.  In a successfully composed subplot, each scenario's
minimum- and maximum-temperature curves have exactly
`MaturityDAS[scenario]` points whose x-coordinates are the consecutive
days `1, ..., MaturityDAS[scenario]` — the scenario's own maturity day
count, not the shared maximum of the two scenarios. -/
theorem claim_C4_curve_extent (env : Env) (yl : Option ℚ × Option ℚ)
    (location cultivar : String) (mean_df : List MeanRow) (sp : Subplot)
    (ph : Phen) (sc : String)
    (h : composeSubplot env yl location cultivar mean_df = .ok sp)
    (hph : loadPhenology location cultivar mean_df = .ok ph)
    (hsc : sc ∈ scenarios)
    (hm : 0 ≤ ph.maturity sc) :
    (findPlot sp sc).map (fun p => p.mintCurve.map Prod.fst)
      = some (daysList (ph.maturity sc)) ∧
    (findPlot sp sc).map (fun p => p.maxtCurve.map Prod.fst)
      = some (daysList (ph.maturity sc)) ∧
    (findPlot sp sc).map (fun p => (p.mintCurve.length : ℤ)) = some (ph.maturity sc) ∧
    (findPlot sp sc).map (fun p => (p.maxtCurve.length : ℤ)) = some (ph.maturity sc) := by
  obtain ⟨ph', v245, v585, p1, p2, h1, h2, h3, h4, h5, hsp⟩ := composeSubplot_ok_inv h
  rw [hph] at h1
  injection h1 with h1
  subst h1
  obtain ⟨w1, fl1, mm1, hw1, hl1a, hl1b, -, -, hp1⟩ := composeScenario_ok_inv h4
  obtain ⟨w2, fl2, mm2, hw2, hl2a, hl2b, -, -, hp2⟩ := composeScenario_ok_inv h5
  have hfind := findPlot_pair sp p1 p2
    (by rw [hsp]) (by rw [hp1]) (by rw [hp2])
  have hsc' : sc = "ssp245" ∨ sc = "ssp585" := by simpa [scenarios] using hsc
  rcases hsc' with rfl | rfl
  · have hshape1 := curve_shape hm (le_max_left _ _) hl1a
    have hshape2 := curve_shape hm (le_max_left _ _) hl1b
    rw [hfind.1, hp1]
    exact ⟨congrArg some hshape1.1, congrArg some hshape2.1,
      congrArg some hshape1.2, congrArg some hshape2.2⟩
  · have hshape1 := curve_shape hm (le_max_right _ _) hl2a
    have hshape2 := curve_shape hm (le_max_right _ _) hl2b
    rw [hfind.2, hp2]
    exact ⟨congrArg some hshape1.1, congrArg some hshape2.1,
      congrArg some hshape1.2, congrArg some hshape2.2⟩

/-- C5.  In a successfully composed subplot, a scenario carries a
flowering marker exactly when `FloweringDAS[scenario] ≤
MaturityDAS[scenario]`; in particular no flowering marker is emitted
when flowering exceeds maturity. -/
theorem claim_C5_flower_marker_guard (env : Env) (yl : Option ℚ × Option ℚ)
    (location cultivar : String) (mean_df : List MeanRow) (sp : Subplot)
    (ph : Phen) (sc : String)
    (h : composeSubplot env yl location cultivar mean_df = .ok sp)
    (hph : loadPhenology location cultivar mean_df = .ok ph)
    (hsc : sc ∈ scenarios) :
    (findPlot sp sc).map (fun p => p.flower.isSome)
      = some (decide (ph.flowering sc ≤ ph.maturity sc)) := by
  obtain ⟨ph', v245, v585, p1, p2, h1, h2, h3, h4, h5, hsp⟩ := composeSubplot_ok_inv h
  rw [hph] at h1
  injection h1 with h1
  subst h1
  obtain ⟨w1, fl1, mm1, hw1, -, -, hfl1, -, hp1⟩ := composeScenario_ok_inv h4
  obtain ⟨w2, fl2, mm2, hw2, -, -, hfl2, -, hp2⟩ := composeScenario_ok_inv h5
  have hfind := findPlot_pair sp p1 p2
    (by rw [hsp]) (by rw [hp1]) (by rw [hp2])
  have hsc' : sc = "ssp245" ∨ sc = "ssp585" := by simpa [scenarios] using hsc
  rcases hsc' with rfl | rfl
  · rw [hfind.1, hp1]
    exact congrArg some (flowerMarkOf_ok_isSome hfl1)
  · rw [hfind.2, hp2]
    exact congrArg some (flowerMarkOf_ok_isSome hfl2)

/-! ## Error propagation through the location loop -/

theorem composeSubplot_err {env : Env} {yl : Option ℚ × Option ℚ}
    {location cultivar : String} {mean_df : List MeanRow} {e : String}
    (h : loadPhenology location cultivar mean_df = .error e) :
    composeSubplot env yl location cultivar mean_df = .error e := by
  unfold composeSubplot
  rw [h]
  rfl

theorem composeSubplot_ok_cultivar {env : Env} {yl : Option ℚ × Option ℚ}
    {location cultivar : String} {mean_df : List MeanRow} {sp : Subplot}
    (h : composeSubplot env yl location cultivar mean_df = .ok sp) :
    sp.cultivar = cultivar := by
  obtain ⟨ph, v245, v585, p1, p2, -, -, -, -, -, hsp⟩ := composeSubplot_ok_inv h
  rw [hsp]

theorem composeSubplot_ok_ylim {env : Env} {yl : Option ℚ × Option ℚ}
    {location cultivar : String} {mean_df : List MeanRow} {sp : Subplot}
    (h : composeSubplot env yl location cultivar mean_df = .ok sp) :
    sp.ylim = yl := by
  obtain ⟨ph, v245, v585, p1, p2, -, -, -, -, -, hsp⟩ := composeSubplot_ok_inv h
  rw [hsp]

theorem composeLocation_none {env : Env} {yl : Option ℚ × Option ℚ} {loc : String}
    (h : env.meanSheet loc = none) :
    composeLocation env yl loc = ([], some ("Error reading sheet " ++ loc)) := by
  unfold composeLocation
  rw [h]

theorem composeLocation_sheet {env : Env} {yl : Option ℚ × Option ℚ}
    {loc : String} {sheet : List MeanRow}
    (h : env.meanSheet loc = some sheet) :
    composeLocation env yl loc =
      (match composeSubplot env yl loc "260" sheet with
       | .error e => ([], some e)
       | .ok s1 =>
         match composeSubplot env yl loc "704" sheet with
         | .error e => ([s1], some e)
         | .ok s2 => ([s1, s2], none)) := by
  unfold composeLocation
  rw [h]

theorem composeLocation_ylim {env : Env} {yl : Option ℚ × Option ℚ} {loc : String} :
    ∀ sp ∈ (composeLocation env yl loc).1, sp.ylim = yl := by
  intro sp hsp
  cases hms : env.meanSheet loc with
  | none =>
    rw [composeLocation_none hms] at hsp
    simp at hsp
  | some sheet =>
    rw [composeLocation_sheet hms] at hsp
    cases h260 : composeSubplot env yl loc "260" sheet with
    | error e =>
      rw [h260] at hsp
      simp at hsp
    | ok s1 =>
      rw [h260] at hsp
      cases h704 : composeSubplot env yl loc "704" sheet with
      | error e =>
        rw [h704] at hsp
        simp at hsp
        rw [hsp]
        exact composeSubplot_ok_ylim h260
      | ok s2 =>
        rw [h704] at hsp
        simp at hsp
        rcases hsp with rfl | rfl
        · exact composeSubplot_ok_ylim h260
        · exact composeSubplot_ok_ylim h704

theorem composeGroup_ylim {env : Env} {yl : Option ℚ × Option ℚ} :
    ∀ locs : List String, ∀ sp ∈ (composeGroup env yl locs).1, sp.ylim = yl := by
  intro locs
  induction locs with
  | nil => intro sp hsp; simp [composeGroup] at hsp
  | cons l rest ih =>
    intro sp hsp
    unfold composeGroup at hsp
    cases hloc : composeLocation env yl l with
    | mk sps err =>
      cases err with
      | some e =>
        rw [hloc] at hsp
        simp at hsp
        exact composeLocation_ylim sp (by rw [hloc]; exact hsp)
      | none =>
        rw [hloc] at hsp
        simp at hsp
        rcases hsp with hsp | hsp
        · exact composeLocation_ylim sp (by rw [hloc]; exact hsp)
        · exact ih sp hsp

theorem runGroups_ylim {env : Env} {yl : Option ℚ × Option ℚ} :
    ∀ (gs : List (List String)) (grids : List (List Subplot)),
      runGroups env yl gs = .ok grids →
      ∀ g ∈ grids, ∀ sp ∈ g, sp.ylim = yl := by
  intro gs
  induction gs with
  | nil =>
    intro grids h g hg
    unfold runGroups at h
    injection h with h
    rw [← h] at hg
    simp at hg
  | cons locs rest ih =>
    intro grids h g hg sp hsp
    unfold runGroups at h
    cases hcg : composeGroup env yl locs with
    | mk sps err =>
      cases err with
      | some e => rw [hcg] at h; cases h
      | none =>
        rw [hcg] at h
        cases hrest : runGroups env yl rest with
        | error e => rw [hrest] at h; cases h
        | ok gs' =>
          rw [hrest] at h
          injection h with h
          rw [← h] at hg
          simp at hg
          rcases hg with rfl | hg
          · exact composeGroup_ylim locs sp (by rw [hcg]; exact hsp)
          · exact ih gs' hrest g hg sp hsp

/-! ## Claim theorem: label-mismatch failure scope (C7, amended) -/

/-- C7 (amended).  If a designated summary row's label does not match
the encoded scenario token, processing of that location fails and no
subplot for the offending cultivar is drawn; but validation runs per
cultivar inside the drawing loop, so a subplot of an earlier cultivar
of the same location may already have been drawn when the mismatch is
detected (the drawn list contains only subplots of other cultivars). -/
theorem claim_C7_label_mismatch_scope (env : Env) (yl : Option ℚ × Option ℚ)
    (loc : String) (sheet : List MeanRow) (cult sc : String) (row : MeanRow)
    (hsheet : env.meanSheet loc = some sheet)
    (hcult : cult ∈ cultivars) (hsc : sc ∈ scenarios)
    (hrow : sheet.get? (row_indices cult sc) = some row)
    (hbad : pyStrip row.label ≠ scenarioToken sc) :
    (composeLocation env yl loc).2.isSome = true ∧
    ((composeLocation env yl loc).1.all (fun sp => !(sp.cultivar == cult))) = true := by
  have hfail : exOk (loadPhenology loc cult sheet) = false :=
    loadPhenology_label_err hsc hrow hbad
  obtain ⟨e0, he0⟩ := (exOk_false_iff _).mp hfail
  have hsubErr : composeSubplot env yl loc cult sheet = Except.error e0 :=
    composeSubplot_err he0
  rw [composeLocation_sheet hsheet]
  have hc' : cult = "260" ∨ cult = "704" := by simpa [cultivars] using hcult
  rcases hc' with rfl | rfl
  · rw [hsubErr]
    exact ⟨rfl, rfl⟩
  · cases h260 : composeSubplot env yl loc "260" sheet with
    | error e => exact ⟨rfl, rfl⟩
    | ok s1 =>
      rw [hsubErr]
      refine ⟨rfl, ?_⟩
      have hc1 : s1.cultivar = "260" := composeSubplot_ok_cultivar h260
      simp only [List.all_cons, List.all_nil, Bool.and_true, hc1]
      rfl

/-! ## Claim theorem: flowering index semantics (C10) -/

theorem pyGet_nonneg {xs : List ℚ} {i : ℤ} (hi : 0 ≤ i) (hl : i.toNat < xs.length) :
    pyGet xs i = some (xs.getD i.toNat 0) := by
  unfold pyGet
  dsimp only
  rw [if_neg (not_lt.mpr hi), if_pos hi]
  cases hg : xs.get? i.toNat with
  | none => exact absurd (List.get?_eq_none.mp hg) (Nat.not_le.mpr hl)
  | some a =>
    rw [List.getD_eq_getElem?_getD, ← List.get?_eq_getElem?, hg]
    rfl

set_option maxRecDepth 8000 in
/-- C10.  The flowering-marker guard does not require a flowering day
count of at least 1.  First: on a concrete input whose flowering cell
rounds to 0 (with maturity 3 ≥ 0), the subplot composes without any
error and the emitted marker's anchor is the mean of the temperatures
of the last plotted day — `(5 + 6)/2` at array index `-1` — rather
than of any day-0 value.  Second: whenever
`1 ≤ flowering ≤ maturity` (and the index is in range), the accessed
index is `flowering − 1`, the flowering day itself. -/
theorem claim_C10_flowering_zero_index :
    (cellOf sheetC10 3 MeanRow.floweringDAS = some (3/10) ∧
     pyRound (3/10) = 0 ∧
     ((composeSubplot envC10 (some 0, some 50) "Dezful" "260" sheetC10).toOption.bind
        (fun sp => (findPlot sp "ssp245").bind ScenarioPlot.flower)).map
          FlowerMark.yAnchor = some (11/2)) ∧
    (∀ (idx : ℕ) (scLabel : String) (ph : Phen) (fvar : Option ℚ)
       (mint maxt : List ℚ),
      1 ≤ ph.flowering scLabel →
      ph.flowering scLabel ≤ ph.maturity scLabel →
      (ph.flowering scLabel - 1).toNat < mint.length →
      (ph.flowering scLabel - 1).toNat < maxt.length →
      flowerMarkOf idx scLabel ph fvar mint maxt =
        .ok (some { x := ph.flowering scLabel,
                    yAnchor := (mint.getD (ph.flowering scLabel - 1).toNat 0
                      + maxt.getD (ph.flowering scLabel - 1).toNat 0) / 2 + (idx : ℚ) * 6,
                    xText := ph.flowering scLabel +
                      (if |ph.flowering "ssp245" - ph.flowering "ssp585"| < 20 then 10 else 5),
                    variance := fvar })) := by
  constructor
  · refine ⟨by with_unfolding_all decide, by with_unfolding_all decide, ?_⟩
    with_unfolding_all decide
  · intro idx scLabel ph fvar mint maxt h1 h2 hlm hlx
    have hnn : 0 ≤ ph.flowering scLabel - 1 := by omega
    unfold flowerMarkOf
    rw [if_pos h2, pyGet_nonneg hnn hlm, pyGet_nonneg hnn hlx]

/-! ## Claim theorem: the global range and its application (C1) -/

/-- C1.  When the whole run succeeds, the padded range produced by the
Range Scanner is exactly (minimum of all scanned window values − 2,
maximum + 2), and that same pair is the vertical axis range of every
subplot of every grid. -/
theorem claim_C1_global_range (env : Env) (ymin ymax : Option ℚ)
    (grids : List (List Subplot))
    (hscan : rangeScan env = .ok (ymin, ymax))
    (hrun : runProgram env = .ok grids) :
    ymin = (listMin? (allScanVals env scanPairs)).map (fun v => v - 2) ∧
    ymax = (listMax? (allScanVals env scanPairs)).map (fun v => v + 2) ∧
    (grids.all (fun g => g.all (fun sp => decide (sp.ylim = (ymin, ymax))))) = true := by
  have hgroups : runGroups env (ymin, ymax) location_groups = .ok grids := by
    unfold runProgram at hrun
    rw [hscan] at hrun
    exact hrun
  cases hso : rangeScanOver env scanPairs (none, none) with
  | error e =>
    exfalso
    unfold rangeScan at hscan
    rw [hso] at hscan
    cases hscan
  | ok w =>
    obtain ⟨a, b⟩ := w
    unfold rangeScan at hscan
    rw [hso] at hscan
    simp only [Except.ok.injEq, Prod.mk.injEq] at hscan
    obtain ⟨ha, hb⟩ := hscan
    obtain ⟨-, hv⟩ := (rangeScanOver_ok_iff env scanPairs (none, none) (a, b)).mp hso
    simp only [mergeMin_none_left, mergeMax_none_left, Prod.mk.injEq] at hv
    refine ⟨?_, ?_, ?_⟩
    · rw [← ha, hv.1]
    · rw [← hb, hv.2]
    · rw [List.all_eq_true]
      intro g hg
      rw [List.all_eq_true]
      intro sp hsp
      rw [decide_eq_true_iff]
      exact runGroups_ylim location_groups grids hgroups g hg sp hsp

/-! ## Evaluation lemmas for the concrete environments -/

theorem windowVals_replicate (n : ℕ) (row : DailyRow)
    (hn : start_index + max_days ≤ n) :
    windowVals (List.replicate n row) =
      (List.replicate max_days row).flatMap (fun r => [r.avg_mint, r.avg_maxt]) := by
  unfold windowVals
  rw [List.drop_replicate, List.take_replicate,
    Nat.min_eq_left (by omega : max_days ≤ n - start_index)]

theorem listMin?_flatMap_pair (a b : ℚ) : ∀ k : ℕ,
    listMin? ((List.replicate (k + 1) (⟨a, b⟩ : DailyRow)).flatMap
      (fun r => [r.avg_mint, r.avg_maxt])) = some (min a b)
  | 0 => rfl
  | k + 1 => by
    rw [show List.replicate (k + 1 + 1) (⟨a, b⟩ : DailyRow)
        = ⟨a, b⟩ :: List.replicate (k + 1) ⟨a, b⟩ from rfl,
      List.flatMap_cons, listMin?_append, listMin?_flatMap_pair a b k]
    show mergeMin (listMin? [a, b]) (some (min a b)) = some (min a b)
    show mergeMin (some (min a b)) (some (min a b)) = some (min a b)
    rw [mergeMin_self]

theorem listMax?_flatMap_pair (a b : ℚ) : ∀ k : ℕ,
    listMax? ((List.replicate (k + 1) (⟨a, b⟩ : DailyRow)).flatMap
      (fun r => [r.avg_mint, r.avg_maxt])) = some (max a b)
  | 0 => rfl
  | k + 1 => by
    rw [show List.replicate (k + 1 + 1) (⟨a, b⟩ : DailyRow)
        = ⟨a, b⟩ :: List.replicate (k + 1) ⟨a, b⟩ from rfl,
      List.flatMap_cons, listMax?_append, listMax?_flatMap_pair a b k]
    show mergeMax (listMax? [a, b]) (some (max a b)) = some (max a b)
    show mergeMax (some (max a b)) (some (max a b)) = some (max a b)
    rw [mergeMax_self]

theorem listMin?_flatMap_const {α : Type} (w : List ℚ) :
    ∀ ps : List α, ps ≠ [] →
      listMin? (ps.flatMap (fun _ => w)) = listMin? w
  | [], h => absurd rfl h
  | p :: rest, _ => by
    rw [List.flatMap_cons, listMin?_append]
    cases rest with
    | nil => exact mergeMin_none_right _
    | cons q rest' =>
      rw [listMin?_flatMap_const w (q :: rest') (by simp)]
      rw [mergeMin_self]

theorem listMax?_flatMap_const {α : Type} (w : List ℚ) :
    ∀ ps : List α, ps ≠ [] →
      listMax? (ps.flatMap (fun _ => w)) = listMax? w
  | [], h => absurd rfl h
  | p :: rest, _ => by
    rw [List.flatMap_cons, listMax?_append]
    cases rest with
    | nil => exact mergeMax_none_right _
    | cons q rest' =>
      rw [listMax?_flatMap_const w (q :: rest') (by simp)]
      rw [mergeMax_self]

theorem rangeScanOver_const (env : Env) (a b : ℚ) (n : ℕ)
    (hn : start_index + max_days ≤ n)
    (hdaily : ∀ l t, env.daily l t = some (List.replicate n ⟨a, b⟩))
    (ps : List (String × String)) (hps : ps ≠ []) (acc : Option ℚ × Option ℚ) :
    rangeScanOver env ps acc =
      .ok (mergeMin acc.1 (some (min a b)), mergeMax acc.2 (some (max a b))) := by
  apply (rangeScanOver_ok_iff env ps acc _).mpr
  constructor
  · intro p hp
    exact ⟨_, hdaily _ _, by rw [List.length_replicate]; exact hn⟩
  · have hfun : pairVals env = fun _ : String × String =>
        windowVals (List.replicate n (⟨a, b⟩ : DailyRow)) := by
      funext p
      unfold pairVals
      rw [hdaily]
    unfold allScanVals
    rw [hfun, listMin?_flatMap_const _ ps hps, listMax?_flatMap_const _ ps hps,
      windowVals_replicate n _ hn,
      show max_days = 199 + 1 from rfl,
      listMin?_flatMap_pair, listMax?_flatMap_pair]

theorem loadPhenologyW : loadPhenology "Dezful" "260" sheetW = .ok phW := by
  with_unfolding_all decide

set_option maxRecDepth 8000 in
theorem composeSubplotW :
    composeSubplot envW (some 8, some 32) "Dezful" "260" sheetW = .ok spW := by
  have hok : exOk (composeSubplot envW (some 8, some 32) "Dezful" "260" sheetW) = true := by
    with_unfolding_all decide
  cases h : composeSubplot envW (some 8, some 32) "Dezful" "260" sheetW with
  | error e => rw [h] at hok; simp [exOk] at hok
  | ok sp =>
    unfold spW
    rw [h]

theorem rangeScanW : rangeScan envW = .ok (some 8, some 32) := by
  unfold rangeScan
  rw [rangeScanOver_const envW 10 30 342 (by decide) (fun l t => rfl) scanPairs
    (by decide) (none, none)]
  with_unfolding_all decide

set_option maxRecDepth 100000 in
theorem runGroupsW :
    exOk (runGroups envW (some 8, some 32) location_groups) = true := by
  with_unfolding_all decide

theorem runProgramW : runProgram envW = .ok gridsW := by
  unfold runProgram
  rw [rangeScanW]
  show runGroups envW (some 8, some 32) location_groups = .ok gridsW
  have hok := runGroupsW
  cases h : runGroups envW (some 8, some 32) location_groups with
  | error e => rw [h] at hok; simp [exOk] at hok
  | ok gs =>
    unfold gridsW
    rw [h]

/-! ## Witnesses and counterexamples -/

/-- Witness for C1: the fully valid environment `envW` (flat series at
10 / 30 °C) yields the padded range (8, 32), which equals the scanned
minimum − 2 and maximum + 2, and every composed subplot carries it. -/
theorem claim_C1_witness :
    (some (8 : ℚ)) = (listMin? (allScanVals envW scanPairs)).map (fun v => v - 2) ∧
    (some (32 : ℚ)) = (listMax? (allScanVals envW scanPairs)).map (fun v => v + 2) ∧
    (gridsW.all (fun g => g.all (fun sp =>
      decide (sp.ylim = (some (8 : ℚ), some (32 : ℚ)))))) = true :=
  claim_C1_global_range envW (some 8) (some 32) gridsW rangeScanW runProgramW

/-- Witness for C2: in `envShort` every daily series has 100 rows, so
the scan step fails with the message naming the file and the whole
Range Scanner yields no value. -/
theorem claim_C2_witness :
    scanOne envShort "Dezful" "ssp245" (none, none)
      = .error (shortScanMsg "Dezful" "ssp245" dfShort.length) ∧
    exOk (rangeScan envShort) = false :=
  (claim_C2_scan_length_check envShort "Dezful" "ssp245" dfShort (none, none)
    (by decide) rfl).1 (by with_unfolding_all decide)

/-- Witness for C3: the (Dezful, 260) record of `sheetW` rounds its
ssp245 cells 3 and 2 to the integers `pyRound 3` and `pyRound 2`. -/
theorem claim_C3_witness :
    Phen.maturity phW "ssp245" = pyRound 3 ∧
    Phen.flowering phW "ssp245" = pyRound 2 ∧
    |(pyRound (3 : ℚ) : ℚ) - 3| ≤ 1/2 ∧ |(pyRound (2 : ℚ) : ℚ) - 2| ≤ 1/2 :=
  claim_C3_phenology_rounding "Dezful" "260" sheetW phW "ssp245" 3 2
    loadPhenologyW (by decide) (by with_unfolding_all decide)
    (by with_unfolding_all decide)

/-- Witness for C4: in the (Dezful, 260) subplot of `envW` the ssp245
curves stop at day 3 (this scenario's own maturity) although the
shared maximum is 4. -/
theorem claim_C4_witness :
    (findPlot spW "ssp245").map (fun p => p.mintCurve.map Prod.fst)
      = some (daysList (Phen.maturity phW "ssp245")) ∧
    (findPlot spW "ssp245").map (fun p => p.maxtCurve.map Prod.fst)
      = some (daysList (Phen.maturity phW "ssp245")) ∧
    (findPlot spW "ssp245").map (fun p => (p.mintCurve.length : ℤ))
      = some (Phen.maturity phW "ssp245") ∧
    (findPlot spW "ssp245").map (fun p => (p.maxtCurve.length : ℤ))
      = some (Phen.maturity phW "ssp245") :=
  claim_C4_curve_extent envW (some 8, some 32) "Dezful" "260" sheetW spW phW
    "ssp245" composeSubplotW loadPhenologyW (by decide) (by decide)

/-- Witness for C5: in the (Dezful, 260) subplot of `envW`, flowering
day 2 ≤ maturity day 4 for ssp585, so the flowering marker is present
exactly as the guard demands. -/
theorem claim_C5_witness :
    (findPlot spW "ssp585").map (fun p => p.flower.isSome)
      = some (decide (Phen.flowering phW "ssp585" ≤ Phen.maturity phW "ssp585")) :=
  claim_C5_flower_marker_guard envW (some 8, some 32) "Dezful" "260" sheetW spW
    phW "ssp585" composeSubplotW loadPhenologyW (by decide)

/-- Witness for C6: the future file `rawW` (preamble 1, 2, 3, 4; then
members 10 and 12) yields the sample variance of exactly the
spec-described value list. -/
theorem claim_C6_witness :
    loadFloweringVar envW "260" "Dezful" "ssp245"
      = .ok (sampleVar (specFloweringVals rawW)) :=
  claim_C6_flowering_variability envW "260" "Dezful" "ssp245" rawW rfl

/-- Witness for C7 (amended): the mismatched 704/ssp245 label of
`sheetC7` makes the Dezful location fail with no 704 subplot drawn. -/
theorem claim_C7_witness :
    (composeLocation envC7 (some 8, some 32) "Dezful").2.isSome = true ∧
    ((composeLocation envC7 (some 8, some 32) "Dezful").1.all
      (fun sp => !(sp.cultivar == "704"))) = true :=
  claim_C7_label_mismatch_scope envC7 (some 8, some 32) "Dezful" sheetC7 "704"
    "ssp245" rowBad rfl (by decide) (by decide) (by with_unfolding_all decide)
    (by decide)

set_option maxRecDepth 8000 in
/-- Counterexample for C7 as stated: in `envC7` the only invalid datum
is the label of the designated 704/ssp245 summary row (row index 13),
yet processing the location both raises an error and has already
completed the drawing of the 260 subplot — the drawn list is not
empty, so the failure does not happen before chart drawing touches the
location. -/
theorem claim_C7_counterexample :
    row_indices "704" "ssp245" = 13 ∧
    (sheetC7.get? 13).map MeanRow.label = some "BAD" ∧
    pyStrip "BAD" ≠ scenarioToken "ssp245" ∧
    (composeLocation envC7 (some 8, some 32) "Dezful").2.isSome = true ∧
    (composeLocation envC7 (some 8, some 32) "Dezful").1 ≠ [] := by
  refine ⟨by decide, by with_unfolding_all decide, by decide, ?_, ?_⟩
  · with_unfolding_all decide
  · with_unfolding_all decide

/-- Witness for C8 (amended): the series `dfW` of length exactly
`start_index + max_days` instantiates both acceptance thresholds. -/
theorem claim_C8_witness :
    (exOk (scanOne envW "Dezful" "ssp245" (none, none)) = true ↔
      start_index + max_days ≤ dfW.length) ∧
    (exOk (readSeriesWindow envW "Dezful" (scenarioToken "ssp245") 4) = true ↔
      (start_index : ℤ) + 4 ≤ (dfW.length : ℤ)) :=
  claim_C8_length_threshold envW "Dezful" "ssp245" dfW (none, none) 4 rfl

/-- Counterexample for C8 as stated: a series of length exactly
`start_index + max_days` (342) is accepted, not rejected, by the Range
Scanner's length check. -/
theorem claim_C8_counterexample :
    dfW.length = start_index + max_days ∧
    envW.daily "Dezful" (scenarioToken "ssp245") = some dfW ∧
    exOk (scanOne envW "Dezful" "ssp245" (none, none)) = true := by
  have hlen : dfW.length = 342 := by
    unfold dfW
    rw [List.length_replicate]
  refine ⟨by rw [hlen]; rfl, rfl, ?_⟩
  rw [@scanOne_ok envW "Dezful" "ssp245" dfW rfl (by rw [hlen]; exact Nat.le_refl 342) (none, none)]
  rfl

/-- Witness for C9: swapping the two visited pairs leaves the scanned
accumulator unchanged. -/
theorem claim_C9_witness :
    rangeScanOver envW [("Shushtar", "ssp585"), ("Dezful", "ssp245")] (none, none)
      = .ok (some 10, some 30) := by
  have h : rangeScanOver envW [("Dezful", "ssp245"), ("Shushtar", "ssp585")] (none, none)
      = .ok (some 10, some 30) := by
    rw [rangeScanOver_const envW 10 30 342 (by decide) (fun l t => rfl) _
      (by decide) (none, none)]
    with_unfolding_all decide
  exact claim_C9_scan_order_independent envW
    [("Dezful", "ssp245"), ("Shushtar", "ssp585")]
    [("Shushtar", "ssp585"), ("Dezful", "ssp245")]
    (none, none) (some 10, some 30) (by decide) h

/-- Witness for C10's universal part: with flowering day 2 and
maturity days 3 and 4, the marker is anchored at the day-2
temperatures (array index 1), i.e. `(11 + 21)/2 = 16`. -/
theorem claim_C10_witness :
    flowerMarkOf 0 "ssp245" ⟨3, 4, 2, 2⟩ none [10, 11, 12, 13] [20, 21, 22, 23]
      = .ok (some ⟨2, 16, 12, none⟩) := by
  have h := claim_C10_flowering_zero_index.2 0 "ssp245" ⟨3, 4, 2, 2⟩ none
    [10, 11, 12, 13] [20, 21, 22, 23]
    (by decide) (by decide) (by decide) (by decide)
  rw [h]
  with_unfolding_all decide

end Maize
